import Mathlib

/-!
Verification of the PiRadio controller (src/PiRadio.py).

The controller state machine is embedded shallowly: the mutable fields of
the `PiRadio` class (`mode`, `last_volume`, `last_track_rotation`) become a
Lean structure, and each event handler (`rotator_changed`,
`button_released`, `button_long_press`) becomes a pure function from the
state to a new state together with the list of commands issued to the MPD
player and the RGB LED.  Volume arithmetic (a Python float in the source)
is modelled over `ℚ` with `VOLUME_FACTOR = 0.2` exact; `int()` truncation
is modelled by `pyInt`.  The button-poller loop body of `ButtonThread.run`
is embedded as a step function over its three loop variables, driven by a
trace of polled (switch-state, current-time) pairs.
-/

/-- The three operating modes, the Python strings "VOLUME", "TRACKS", "OFF". -/
inductive Mode
  | VOLUME
  | TRACKS
  | OFF
deriving DecidableEq, Repr

/-- Commands issued to the external collaborators: the MPD client
(`setvol`, `play`, `stop`, `next`, `previous`) and the RGB LED
(`led.set`, `led.fade`). -/
inductive Cmd
  | setvol (v : ℤ)
  | play
  | stop
  | next
  | previous
  | ledSet (r g b : ℤ)
  | ledFade (r g b : ℤ)
deriving DecidableEq, Repr

/-- The mutable controller state of the `PiRadio` class. -/
structure RadioState where
  mode : Mode
  last_volume : ℚ
  last_track_rotation : ℤ
deriving DecidableEq, Repr

-- Constants from the source file:

/-- `COLOR_VOLUME = [100, 0, 0]` (r, g, b). -/
def COLOR_VOLUME : ℤ × ℤ × ℤ := (100, 0, 0)

/-- `COLOR_TRACKS = [0, 100, 0]` (r, g, b). -/
def COLOR_TRACKS : ℤ × ℤ × ℤ := (0, 100, 0)

/-- `COLOR_OFF = [0, 0, 0]` (r, g, b). -/
def COLOR_OFF : ℤ × ℤ × ℤ := (0, 0, 0)

/-- `INITIAL_VOLUME = 80`. -/
def INITIAL_VOLUME : ℚ := 80

/-- `VOLUME_FACTOR = 0.2` (exact, the Python literal is the binary float
nearest to 1/5; the clamping behaviour under scrutiny does not depend on
that rounding). -/
def VOLUME_FACTOR : ℚ := 0.2

/-- `LONG_PRESS_DURATION = 1200` (milliseconds). -/
def LONG_PRESS_DURATION : ℚ := 1200

/-- `TRACK_ROTATION_THRESHOLD = 20`. -/
def TRACK_ROTATION_THRESHOLD : ℤ := 20

/-- Python `min(100, max(0, x))` from line 98 of the source. -/
def clamp (q : ℚ) : ℚ := min 100 (max 0 q)

/-- Python `int()` on a float: truncation toward zero. -/
def pyInt (q : ℚ) : ℤ := if 0 ≤ q then ⌊q⌋ else ⌈q⌉

/-- The state set up by `PiRadio.__init__`: mode "VOLUME", volume
`INITIAL_VOLUME`, track-rotation accumulator 0. -/
def initState : RadioState :=
  { mode := Mode.VOLUME, last_volume := INITIAL_VOLUME, last_track_rotation := 0 }

/-- `PiRadio.rotator_changed(delta)`: in VOLUME mode scale the delta,
clamp, and issue `setvol(int(volume))`; in TRACKS mode accumulate the
delta and, past the threshold, issue `previous`/`next` and reset; in OFF
mode do nothing.  `math.copysign(1, a) < 0` holds for an integer `a` with
`|a| > TRACK_ROTATION_THRESHOLD` exactly when `a < 0`. -/
def rotator_changed (s : RadioState) (delta : ℤ) : RadioState × List Cmd :=
  if s.mode = Mode.VOLUME then
    let v1 := s.last_volume + delta * VOLUME_FACTOR
    let v2 := min 100 (max 0 v1)
    ({ s with last_volume := v2 }, [Cmd.setvol (pyInt v2)])
  else if s.mode = Mode.TRACKS then
    let a := s.last_track_rotation + delta
    if TRACK_ROTATION_THRESHOLD < |a| then
      if a < 0 then
        ({ s with last_track_rotation := 0 }, [Cmd.previous])
      else
        ({ s with last_track_rotation := 0 }, [Cmd.next])
    else
      ({ s with last_track_rotation := a }, [])
  else
    (s, [])

/-- `PiRadio.adapt_led()`: pick the color for the current mode and issue
`led.set` (immediate) in OFF mode, `led.fade` (animated) otherwise. -/
def adapt_led (s : RadioState) : List Cmd :=
  let colors :=
    if s.mode = Mode.VOLUME then COLOR_VOLUME
    else if s.mode = Mode.TRACKS then COLOR_TRACKS
    else COLOR_OFF
  if s.mode = Mode.OFF then [Cmd.ledSet colors.1 colors.2.1 colors.2.2]
  else [Cmd.ledFade colors.1 colors.2.1 colors.2.2]

/-- `PiRadio.button_released()`: VOLUME toggles to TRACKS, anything else
(TRACKS or OFF) to VOLUME; then `adapt_led` runs on the new state. -/
def button_released (s : RadioState) : RadioState × List Cmd :=
  let t :=
    if s.mode = Mode.VOLUME then { s with mode := Mode.TRACKS }
    else { s with mode := Mode.VOLUME }
  (t, adapt_led t)

/-- `PiRadio.button_long_press()`: from OFF go to VOLUME and issue `play`;
from any other mode go to OFF and issue `stop`; then `adapt_led` runs on
the new state. -/
def button_long_press (s : RadioState) : RadioState × List Cmd :=
  if s.mode = Mode.OFF then
    let t := { s with mode := Mode.VOLUME }
    (t, Cmd.play :: adapt_led t)
  else
    let t := { s with mode := Mode.OFF }
    (t, Cmd.stop :: adapt_led t)

/-- The three events the two poller threads deliver to the controller. -/
inductive REv
  | rotate (delta : ℤ)
  | released
  | longPress
deriving DecidableEq, Repr

/-- One controller invocation for an event. -/
def radioStep (s : RadioState) : REv → RadioState × List Cmd
  | REv.rotate d => rotator_changed s d
  | REv.released => button_released s
  | REv.longPress => button_long_press s

/-- The controller state after a sequence of events. -/
def radioRunState (s : RadioState) (es : List REv) : RadioState :=
  es.foldl (fun t e => (radioStep t e).1) s

/-- The controller state after a sequence of `rotator_changed` calls. -/
def runRotates (s : RadioState) (ds : List ℤ) : RadioState :=
  ds.foldl (fun t d => (rotator_changed t d).1) s

/-- The sum of a list of deltas, as a rational. -/
def sumQ (ds : List ℤ) : ℚ := ((ds.sum : ℤ) : ℚ)

-- The button-poller state machine (`ButtonThread.run`):

/-- Discrete events the button poller reports to the controller. -/
inductive BEv
  | released
  | longPress
deriving DecidableEq, Repr

/-- The loop variables of `ButtonThread.run`: `last_state`,
`long_press_registered`, and `time_of_press` (seconds, `-1` as the
"not pressed" sentinel). -/
structure BtnState where
  last_state : Bool
  long_press_registered : Bool
  time_of_press : ℚ
deriving DecidableEq, Repr

/-- The initial loop state of `ButtonThread.run`. -/
def btnInit : BtnState :=
  { last_state := false, long_press_registered := false, time_of_press := -1 }

/-- One iteration of the `ButtonThread.run` loop body, given the polled
switch state `sw` and the current time `now` (seconds). -/
def buttonStep (s : BtnState) (sw : Bool) (now : ℚ) : BtnState × List BEv :=
  if sw ≠ s.last_state then
    if sw = false then
      if ¬ s.long_press_registered then
        ({ last_state := sw, long_press_registered := s.long_press_registered,
           time_of_press := -1 }, [BEv.released])
      else
        ({ last_state := sw, long_press_registered := false,
           time_of_press := -1 }, [])
    else
      ({ last_state := sw, long_press_registered := s.long_press_registered,
         time_of_press := now }, [])
  else if sw = true then
    if s.time_of_press > 0 ∧ (now - s.time_of_press) * 1000 > LONG_PRESS_DURATION then
      ({ last_state := s.last_state, long_press_registered := true,
         time_of_press := -1 }, [BEv.longPress])
    else
      (s, [])
  else
    (s, [])

/-- Run the button poller over a trace of (switch-state, time) polls,
collecting the reported events in order. -/
def buttonRun : BtnState → List (Bool × ℚ) → BtnState × List BEv
  | s, [] => (s, [])
  | s, (sw, t) :: rest =>
    let p := buttonStep s sw t
    let q := buttonRun p.1 rest
    (q.1, p.2 ++ q.2)

/-- The poll trace of one complete press: a rising edge at time `t0`, a
sequence of sustained-press polls at times `holds`, then a release. -/
def pressTrace (t0 : ℚ) (holds : List ℚ) (tr : ℚ) : List (Bool × ℚ) :=
  (true, t0) :: holds.map (fun t => (true, t)) ++ [(false, tr)]

-- Helper lemmas

lemma clamp_mem (q : ℚ) : 0 ≤ clamp q ∧ clamp q ≤ 100 := by
  unfold clamp
  exact ⟨le_min (by norm_num) (le_max_left 0 q), min_le_left _ _⟩

lemma clamp_eq_self {q : ℚ} (h0 : 0 ≤ q) (h1 : q ≤ 100) : clamp q = q := by
  unfold clamp
  rw [max_eq_right h0, min_eq_right h1]

lemma sumQ_nil : sumQ [] = 0 := by simp [sumQ]

lemma sumQ_cons (d : ℤ) (l : List ℤ) : sumQ (d :: l) = (d : ℚ) + sumQ l := by
  simp [sumQ]

/-- In VOLUME mode, `rotator_changed` clamps the scaled update and issues
exactly one `setvol` of the truncated clamped volume. -/
lemma rotator_changed_volume (s : RadioState) (d : ℤ) (h : s.mode = Mode.VOLUME) :
    rotator_changed s d =
      ({ s with last_volume := clamp (s.last_volume + d * VOLUME_FACTOR) },
        [Cmd.setvol (pyInt (clamp (s.last_volume + d * VOLUME_FACTOR)))]) := by
  simp [rotator_changed, h, clamp]

lemma runRotates_cons (s : RadioState) (d : ℤ) (rest : List ℤ) :
    runRotates s (d :: rest) = runRotates (rotator_changed s d).1 rest := rfl

lemma runRotates_volume_inv (ds : List ℤ) :
    ∀ s : RadioState, s.mode = Mode.VOLUME → 0 ≤ s.last_volume → s.last_volume ≤ 100 →
      (runRotates s ds).mode = Mode.VOLUME ∧
      0 ≤ (runRotates s ds).last_volume ∧ (runRotates s ds).last_volume ≤ 100 := by
  induction ds with
  | nil =>
    intro s h h0 h1
    exact ⟨h, h0, h1⟩
  | cons d rest ih =>
    intro s h h0 h1
    rw [runRotates_cons, rotator_changed_volume s d h]
    exact ih _ h (clamp_mem _).1 (clamp_mem _).2

lemma runRotates_volume_exact (ds : List ℤ) :
    ∀ s : RadioState, s.mode = Mode.VOLUME →
      (∀ n : ℕ, 0 ≤ s.last_volume + sumQ (ds.take n) * VOLUME_FACTOR ∧
        s.last_volume + sumQ (ds.take n) * VOLUME_FACTOR ≤ 100) →
      (runRotates s ds).last_volume = s.last_volume + sumQ ds * VOLUME_FACTOR := by
  induction ds with
  | nil =>
    intro s h hc
    simp [runRotates, sumQ_nil]
  | cons d rest ih =>
    intro s h hc
    have h1 := hc 1
    rw [show (d :: rest).take 1 = [d] from rfl, show sumQ [d] = (d : ℚ) from by
      rw [sumQ_cons, sumQ_nil, add_zero]] at h1
    have hstep : (rotator_changed s d).1 =
        { s with last_volume := clamp (s.last_volume + d * VOLUME_FACTOR) } := by
      rw [rotator_changed_volume s d h]
    rw [runRotates_cons, hstep, clamp_eq_self h1.1 h1.2]
    have hrec := ih { s with last_volume := s.last_volume + d * VOLUME_FACTOR } h (by
      intro n
      have hn := hc (n + 1)
      rw [List.take_succ_cons, sumQ_cons] at hn
      constructor
      · calc (0 : ℚ) ≤ s.last_volume + ((d : ℚ) + sumQ (rest.take n)) * VOLUME_FACTOR := hn.1
          _ = s.last_volume + d * VOLUME_FACTOR + sumQ (rest.take n) * VOLUME_FACTOR := by ring
      · calc s.last_volume + d * VOLUME_FACTOR + sumQ (rest.take n) * VOLUME_FACTOR
            = s.last_volume + ((d : ℚ) + sumQ (rest.take n)) * VOLUME_FACTOR := by ring
          _ ≤ 100 := hn.2)
    rw [hrec, sumQ_cons]
    ring

/-- C1 counterexample: starting from the initial volume 80, the delta
sequence [500, -500] clamps to 100 then to 0, ending at volume 0, while
the single-clamp closed form gives clamp(80 + 0 * 0.2) = 80. -/
theorem C1_counterexample :
    (runRotates initState [500, -500]).last_volume ≠
      clamp (80 + sumQ [500, -500] * VOLUME_FACTOR) := by
  norm_num [runRotates, rotator_changed, clamp, sumQ, VOLUME_FACTOR, initState,
    INITIAL_VOLUME, min_def, max_def]

/-- C1 (amended): for every sequence of rotations in VOLUME mode the
resulting volume stays in [0, 100], and it equals the closed form
clamp(initial + (Σ delta_i) * VOLUME_FACTOR) whenever no intermediate
update is clamped, i.e. whenever every partial value
initial + (Σ_{j≤i} delta_j) * VOLUME_FACTOR already lies in [0, 100]. -/
theorem C1_volume_sequence (v0 : ℚ) (a : ℤ) (ds : List ℤ)
    (h0 : 0 ≤ v0) (h1 : v0 ≤ 100) :
    (0 ≤ (runRotates ⟨Mode.VOLUME, v0, a⟩ ds).last_volume ∧
      (runRotates ⟨Mode.VOLUME, v0, a⟩ ds).last_volume ≤ 100) ∧
    ((∀ n : ℕ, 0 ≤ v0 + sumQ (ds.take n) * VOLUME_FACTOR ∧
        v0 + sumQ (ds.take n) * VOLUME_FACTOR ≤ 100) →
      (runRotates ⟨Mode.VOLUME, v0, a⟩ ds).last_volume =
        clamp (v0 + sumQ ds * VOLUME_FACTOR)) := by
  constructor
  · have h := runRotates_volume_inv ds ⟨Mode.VOLUME, v0, a⟩ rfl h0 h1
    exact ⟨h.2.1, h.2.2⟩
  · intro hc
    have hfin := hc ds.length
    rw [List.take_length] at hfin
    rw [runRotates_volume_exact ds ⟨Mode.VOLUME, v0, a⟩ rfl hc,
      clamp_eq_self hfin.1 hfin.2]

/-- C1 witness: the spec's own scenario, five rotations of +5 from volume
80 with factor 0.2 give exactly 85 = clamp(80 + 25 * 0.2). -/
theorem C1_witness :
    (runRotates ⟨Mode.VOLUME, 80, 0⟩ [5, 5, 5, 5, 5]).last_volume =
      clamp (80 + sumQ [5, 5, 5, 5, 5] * VOLUME_FACTOR) := by
  refine (C1_volume_sequence 80 0 [5, 5, 5, 5, 5] (by norm_num) (by norm_num)).2 ?_
  intro n
  rcases n with _ | _ | _ | _ | _ | m <;> norm_num [sumQ, VOLUME_FACTOR]

/-- C2: in TRACKS mode a single `next` is issued exactly when the updated
accumulator exceeds the threshold, a single `previous` exactly when it
falls below its negation, the accumulator resets to 0 immediately after
either command and otherwise just stores the update, and neither the mode
nor the volume changes. -/
theorem C2_tracks_step (s : RadioState) (d : ℤ) (h : s.mode = Mode.TRACKS) :
    ((rotator_changed s d).2 =
      if TRACK_ROTATION_THRESHOLD < s.last_track_rotation + d then [Cmd.next]
      else if s.last_track_rotation + d < -TRACK_ROTATION_THRESHOLD then [Cmd.previous]
      else []) ∧
    ((rotator_changed s d).1.last_track_rotation =
      if TRACK_ROTATION_THRESHOLD < s.last_track_rotation + d ∨
          s.last_track_rotation + d < -TRACK_ROTATION_THRESHOLD then 0
      else s.last_track_rotation + d) ∧
    (rotator_changed s d).1.mode = s.mode ∧
    (rotator_changed s d).1.last_volume = s.last_volume := by
  rcases s with ⟨m, v, a⟩
  simp only [RadioState.mode] at h
  subst h
  simp only [rotator_changed, TRACK_ROTATION_THRESHOLD]
  norm_num
  rcases le_or_lt 0 (a + d) with hb | hb
  · rw [abs_of_nonneg hb]
    split_ifs <;> simp_all <;> omega
  · rw [abs_of_neg hb]
    split_ifs <;> simp_all <;> omega

/-- C2 witness: the spec's scenario, a single +25 rotation in TRACKS mode
from accumulator 0 fires one `next` and resets the accumulator to 0. -/
theorem C2_witness :
    (rotator_changed ⟨Mode.TRACKS, 80, 0⟩ 25).2 = [Cmd.next] ∧
    (rotator_changed ⟨Mode.TRACKS, 80, 0⟩ 25).1.last_track_rotation = 0 := by
  have h := C2_tracks_step ⟨Mode.TRACKS, 80, 0⟩ 25 rfl
  refine ⟨?_, ?_⟩
  · rw [h.1]
    norm_num [TRACK_ROTATION_THRESHOLD]
  · rw [h.2.1]
    norm_num [TRACK_ROTATION_THRESHOLD]

/-- C3: a button release toggles VOLUME to TRACKS and both TRACKS and OFF
to VOLUME, never issues `play` (in particular not when leaving OFF), and
always ends by running `adapt_led` on the new state. -/
theorem C3_button_released_toggle (s : RadioState) :
    ((button_released s).1.mode =
      if s.mode = Mode.VOLUME then Mode.TRACKS else Mode.VOLUME) ∧
    (button_released s).2 = adapt_led (button_released s).1 ∧
    Cmd.play ∉ (button_released s).2 := by
  rcases s with ⟨m, v, a⟩
  cases m <;>
    simp [button_released, adapt_led, COLOR_VOLUME, COLOR_TRACKS, COLOR_OFF]

/-- C4: a long press from OFF resumes (mode VOLUME, `play` issued), from
any other mode stops (mode OFF, `stop` issued), and then runs `adapt_led`,
which maps OFF to an immediate black `led.set` and the other modes to an
animated `led.fade` (red for VOLUME, green for TRACKS). -/
theorem C4_long_press_toggle (s : RadioState) :
    ((s.mode = Mode.OFF →
        (button_long_press s).1.mode = Mode.VOLUME ∧
        (button_long_press s).2 = Cmd.play :: adapt_led (button_long_press s).1) ∧
      (s.mode ≠ Mode.OFF →
        (button_long_press s).1.mode = Mode.OFF ∧
        (button_long_press s).2 = Cmd.stop :: adapt_led (button_long_press s).1)) ∧
    (∀ t : RadioState, adapt_led t =
      if t.mode = Mode.OFF then [Cmd.ledSet 0 0 0]
      else if t.mode = Mode.VOLUME then [Cmd.ledFade 100 0 0]
      else [Cmd.ledFade 0 100 0]) := by
  constructor
  · rcases s with ⟨m, v, a⟩
    cases m <;> simp [button_long_press, adapt_led]
  · intro t
    rcases t with ⟨m, v, a⟩
    cases m <;> simp [adapt_led, COLOR_VOLUME, COLOR_TRACKS, COLOR_OFF]

/-- C6 counterexample: in VOLUME mode at volume 80, OnRotate(3) updates
the volume to 80.6 and the code issues setvol(int(80.6)) = setvol 80,
not setvol(round(80.6)) = setvol 81 as the claim states. -/
theorem C6_counterexample :
    (rotator_changed { mode := Mode.VOLUME, last_volume := 80, last_track_rotation := 0 } 3).2 ≠
      [Cmd.setvol (round (clamp (80 + 3 * VOLUME_FACTOR)))] := by
  norm_num [rotator_changed, clamp, VOLUME_FACTOR, pyInt, round_eq, min_def, max_def]

/-- C6 (amended): on every rotation in VOLUME mode exactly one setvol
command is issued, and its argument is the newly clamped volume truncated
toward zero (Python `int()`), not rounded. -/
theorem C6_setvol_truncates (s : RadioState) (d : ℤ) (h : s.mode = Mode.VOLUME) :
    (rotator_changed s d).2 =
      [Cmd.setvol (pyInt (clamp (s.last_volume + d * VOLUME_FACTOR)))] := by
  rw [rotator_changed_volume s d h]

/-- C6 witness: the amended claim at volume 80 and delta 3, where the
issued command is setvol 80 = setvol(int(80.6)). -/
theorem C6_witness :
    (rotator_changed ⟨Mode.VOLUME, 80, 0⟩ 3).2 =
      [Cmd.setvol (pyInt (clamp (80 + 3 * VOLUME_FACTOR)))] :=
  C6_setvol_truncates ⟨Mode.VOLUME, 80, 0⟩ 3 rfl

/-- C7: in OFF mode a rotation is a complete no-op, the state (mode,
volume, accumulator) is returned unchanged and no command is issued. -/
theorem C7_off_noop (s : RadioState) (d : ℤ) (h : s.mode = Mode.OFF) :
    rotator_changed s d = (s, []) := by
  simp [rotator_changed, h]

/-- C7 witness: a concrete rotation in OFF mode changes nothing. -/
theorem C7_witness :
    rotator_changed ⟨Mode.OFF, 80, 5⟩ 7 = (⟨Mode.OFF, 80, 5⟩, []) :=
  C7_off_noop ⟨Mode.OFF, 80, 5⟩ 7 rfl

/-- C10: neither button handler touches the volume or the track-rotation
accumulator, so a partially accumulated rotation survives mode switches. -/
theorem C10_button_frame (s : RadioState) :
    (button_released s).1.last_volume = s.last_volume ∧
    (button_released s).1.last_track_rotation = s.last_track_rotation ∧
    (button_long_press s).1.last_volume = s.last_volume ∧
    (button_long_press s).1.last_track_rotation = s.last_track_rotation := by
  rcases s with ⟨m, v, a⟩
  cases m <;> simp [button_released, button_long_press]

lemma radioStep_acc_bound (s : RadioState) (e : REv)
    (h : |s.last_track_rotation| ≤ TRACK_ROTATION_THRESHOLD) :
    |(radioStep s e).1.last_track_rotation| ≤ TRACK_ROTATION_THRESHOLD := by
  rcases s with ⟨m, v, a⟩
  cases e with
  | rotate d =>
    cases m with
    | VOLUME => simpa [radioStep, rotator_changed] using h
    | TRACKS =>
      by_cases hth : TRACK_ROTATION_THRESHOLD < |a + d|
      · by_cases hneg : a + d < 0 <;>
          simp [radioStep, rotator_changed, hth, hneg] <;>
          norm_num [TRACK_ROTATION_THRESHOLD]
      · have hle : |a + d| ≤ TRACK_ROTATION_THRESHOLD := not_lt.mp hth
        simpa [radioStep, rotator_changed, hth] using hle
    | OFF => simpa [radioStep, rotator_changed] using h
  | released =>
    cases m <;> simpa [radioStep, button_released] using h
  | longPress =>
    cases m <;> simpa [radioStep, button_long_press] using h

lemma radioRunState_cons (s : RadioState) (e : REv) (es : List REv) :
    radioRunState s (e :: es) = radioRunState (radioStep s e).1 es := rfl

lemma radioRunState_acc_bound (es : List REv) :
    ∀ s : RadioState, |s.last_track_rotation| ≤ TRACK_ROTATION_THRESHOLD →
      |(radioRunState s es).last_track_rotation| ≤ TRACK_ROTATION_THRESHOLD := by
  induction es with
  | nil => intro s h; exact h
  | cons e rest ih =>
    intro s h
    rw [radioRunState_cons]
    exact ih _ (radioStep_acc_bound s e h)

/-- C9: starting from the initial state (accumulator 0), after any
sequence of controller invocations (rotations in any mode, releases, long
presses) the track-rotation accumulator's magnitude is at most
TRACK_ROTATION_THRESHOLD: an over-threshold value only exists transiently
inside `rotator_changed`, which resets it to 0 before returning. -/
theorem C9_acc_invariant (es : List REv) :
    |(radioRunState initState es).last_track_rotation| ≤ TRACK_ROTATION_THRESHOLD :=
  radioRunState_acc_bound es initState
    (by norm_num [initState, TRACK_ROTATION_THRESHOLD])

-- Button-poller lemmas for C5

lemma buttonStep_rise (lp : Bool) (tp now : ℚ) :
    buttonStep ⟨false, lp, tp⟩ true now = (⟨true, lp, now⟩, []) := by
  simp [buttonStep]

lemma buttonStep_release_noreg (tp now : ℚ) :
    buttonStep ⟨true, false, tp⟩ false now = (⟨false, false, -1⟩, [BEv.released]) := by
  simp [buttonStep]

lemma buttonStep_release_reg (tp now : ℚ) :
    buttonStep ⟨true, true, tp⟩ false now = (⟨false, false, -1⟩, []) := by
  simp [buttonStep]

lemma buttonStep_hold_quiet (lp : Bool) (tp now : ℚ)
    (h : ¬ (tp > 0 ∧ (now - tp) * 1000 > LONG_PRESS_DURATION)) :
    buttonStep ⟨true, lp, tp⟩ true now = (⟨true, lp, tp⟩, []) := by
  simp [buttonStep, h]

lemma buttonStep_hold_fire (lp : Bool) (tp now : ℚ)
    (h : tp > 0 ∧ (now - tp) * 1000 > LONG_PRESS_DURATION) :
    buttonStep ⟨true, lp, tp⟩ true now = (⟨true, true, -1⟩, [BEv.longPress]) := by
  simp [buttonStep, h]

lemma buttonRun_append (xs ys : List (Bool × ℚ)) :
    ∀ s : BtnState, buttonRun s (xs ++ ys) =
      ((buttonRun (buttonRun s xs).1 ys).1,
        (buttonRun s xs).2 ++ (buttonRun (buttonRun s xs).1 ys).2) := by
  induction xs with
  | nil => intro s; simp [buttonRun]
  | cons p rest ih =>
    intro s
    rcases p with ⟨sw, t⟩
    simp [buttonRun, ih]

lemma buttonRun_holds_registered (ts : List ℚ) :
    buttonRun ⟨true, true, -1⟩ (ts.map fun t => (true, t)) = (⟨true, true, -1⟩, []) := by
  induction ts with
  | nil => rfl
  | cons t rest ih =>
    have hstep : buttonStep ⟨true, true, -1⟩ true t = (⟨true, true, -1⟩, []) :=
      buttonStep_hold_quiet true (-1) t (by rintro ⟨h1, -⟩; norm_num at h1)
    simp [buttonRun, hstep, ih]

lemma buttonRun_holds_waiting (ts : List ℚ) (t0 : ℚ)
    (hall : ∀ t ∈ ts, ¬ (t - t0) * 1000 > LONG_PRESS_DURATION) :
    buttonRun ⟨true, false, t0⟩ (ts.map fun t => (true, t)) = (⟨true, false, t0⟩, []) := by
  induction ts with
  | nil => rfl
  | cons t rest ih =>
    have hstep := buttonStep_hold_quiet false t0 t (by
      rintro ⟨-, hb⟩
      exact hall t (List.mem_cons_self t rest) hb)
    simp [buttonRun, hstep, ih fun u hu => hall u (List.mem_cons_of_mem t hu)]

lemma buttonRun_holds_fire (ts : List ℚ) (t0 : ℚ) (h0 : 0 < t0)
    (hex : ∃ t ∈ ts, (t - t0) * 1000 > LONG_PRESS_DURATION) :
    buttonRun ⟨true, false, t0⟩ (ts.map fun t => (true, t)) =
      (⟨true, true, -1⟩, [BEv.longPress]) := by
  induction ts with
  | nil => simp at hex
  | cons t rest ih =>
    by_cases hc : (t - t0) * 1000 > LONG_PRESS_DURATION
    · have hstep := buttonStep_hold_fire false t0 t ⟨h0, hc⟩
      simp [buttonRun, hstep, buttonRun_holds_registered rest]
    · have hstep := buttonStep_hold_quiet false t0 t (by rintro ⟨-, hb⟩; exact hc hb)
      have hex' : ∃ u ∈ rest, (u - t0) * 1000 > LONG_PRESS_DURATION := by
        rcases hex with ⟨u, hu, hgt⟩
        rcases List.mem_cons.mp hu with rfl | hu'
        · exact absurd hgt hc
        · exact ⟨u, hu', hgt⟩
      simp [buttonRun, hstep, ih hex']

lemma buttonRun_press (t0 tr : ℚ) (holds : List ℚ) :
    (buttonRun btnInit (pressTrace t0 holds tr)).2 =
      (buttonRun ⟨true, false, t0⟩ (holds.map fun t => (true, t))).2 ++
        (buttonRun (buttonRun ⟨true, false, t0⟩ (holds.map fun t => (true, t))).1
          [(false, tr)]).2 := by
  have hstep0 : buttonStep btnInit true t0 = (⟨true, false, t0⟩, []) :=
    buttonStep_rise false (-1) t0
  simp [pressTrace, buttonRun, hstep0, buttonRun_append]

/-- C5: in the button-poller state machine, a press held past the
long-press threshold (some sustained poll exceeds LONG_PRESS_DURATION)
reports exactly one long-press event and its eventual release reports no
release event; a press whose sustained polls all stay within the
threshold reports exactly one release event on release. -/
theorem C5_long_press_suppression (t0 tr : ℚ) (holds : List ℚ) (h0 : 0 < t0) :
    ((∃ t ∈ holds, (t - t0) * 1000 > LONG_PRESS_DURATION) →
      (buttonRun btnInit (pressTrace t0 holds tr)).2 = [BEv.longPress]) ∧
    ((∀ t ∈ holds, ¬ (t - t0) * 1000 > LONG_PRESS_DURATION) →
      (buttonRun btnInit (pressTrace t0 holds tr)).2 = [BEv.released]) := by
  constructor
  · intro hex
    rw [buttonRun_press, buttonRun_holds_fire holds t0 h0 hex]
    simp [buttonRun, buttonStep_release_reg]
  · intro hall
    rw [buttonRun_press, buttonRun_holds_waiting holds t0 hall]
    simp [buttonRun, buttonStep_release_noreg]

/-- C5 witness: a press at time 1s, still held at time 3s (2000 ms  >
1200 ms), released at 4s, reports exactly one long-press and no release;
hypotheses discharged at these concrete times. -/
theorem C5_witness :
    (buttonRun btnInit (pressTrace 1 [3] 4)).2 = [BEv.longPress] :=
  (C5_long_press_suppression 1 4 [3] (by norm_num)).1
    ⟨3, by simp, by norm_num [LONG_PRESS_DURATION]⟩
